import Mathlib

/-!
Shallow embedding of `rust-jsonrpc`'s hyper-based HTTP transport
(`src/hyper_http.rs`) and verification of the specification's claims
about it.

Modelling conventions:
* `Duration` values are natural numbers of milliseconds; `Instant` is a
  natural number (an abstract clock reading).
* JSON values are the inductive `Json`; `serde_json::to_vec` is
  `utf8Bytes (jsonToString _)`.
* The HTTP exchange performed by the `hyper` client (an external
  collaborator) is a parameter `exchange : HttpRequest → ExchangeResult`;
  its result distinguishes a failed request, a failed body read, and a
  received body (given by the JSON value it parses to, or `none` when the
  bytes are not valid JSON).
* Rust panics (`unwrap` on `Err`/`None`) are modelled by explicit
  `panicked` outcomes, so "never panics" is expressible.
-/

namespace RustJsonrpc

/-- JSON values, as produced and consumed by `serde_json`. -/
inductive Json where
  | null
  | bool (b : Bool)
  | num (n : Int)
  | str (s : String)
  | arr (xs : List Json)
  | obj (fields : List (String × Json))

/-- Escape of a single character inside a JSON string literal, following
`serde_json`'s compact output (escape quote, backslash and control
characters). -/
def escapeJsonChar (c : Char) : String :=
  if c = '"' then "\\\""
  else if c = '\\' then "\\\\"
  else if c = '\n' then "\\n"
  else if c = '\r' then "\\r"
  else if c = '\t' then "\\t"
  else if c.toNat < 32 then
    "\\u00" ++ String.mk [Nat.digitChar (c.toNat / 16), Nat.digitChar (c.toNat % 16)]
  else String.singleton c

/-- Escape of a JSON string body. -/
def escapeJsonString (s : String) : String :=
  String.join (s.data.map escapeJsonChar)

mutual

/-- Compact JSON serialization, following `serde_json::to_string`. -/
def jsonToString : Json → String
  | .null => "null"
  | .bool true => "true"
  | .bool false => "false"
  | .num n => toString n
  | .str s => "\"" ++ escapeJsonString s ++ "\""
  | .arr xs => "[" ++ jsonListToString xs ++ "]"
  | .obj fs => "\x7b" ++ jsonObjToString fs ++ "\x7d"

/-- Comma-separated serialization of the elements of a JSON array. -/
def jsonListToString : List Json → String
  | [] => ""
  | [x] => jsonToString x
  | x :: y :: rest => jsonToString x ++ "," ++ jsonListToString (y :: rest)

/-- Comma-separated serialization of the fields of a JSON object. -/
def jsonObjToString : List (String × Json) → String
  | [] => ""
  | [(k, v)] => "\"" ++ escapeJsonString k ++ "\":" ++ jsonToString v
  | (k, v) :: f :: rest =>
      "\"" ++ escapeJsonString k ++ "\":" ++ jsonToString v ++ "," ++
        jsonObjToString (f :: rest)

end

/-- UTF-8 encoding of a single character (RFC 3629). -/
def utf8EncodeChar (c : Char) : List UInt8 :=
  let n := c.toNat
  if n < 0x80 then
    [UInt8.ofNat n]
  else if n < 0x800 then
    [UInt8.ofNat (0xC0 ||| (n >>> 6)), UInt8.ofNat (0x80 ||| (n &&& 0x3F))]
  else if n < 0x10000 then
    [UInt8.ofNat (0xE0 ||| (n >>> 12)), UInt8.ofNat (0x80 ||| ((n >>> 6) &&& 0x3F)),
     UInt8.ofNat (0x80 ||| (n &&& 0x3F))]
  else
    [UInt8.ofNat (0xF0 ||| (n >>> 18)), UInt8.ofNat (0x80 ||| ((n >>> 12) &&& 0x3F)),
     UInt8.ofNat (0x80 ||| ((n >>> 6) &&& 0x3F)), UInt8.ofNat (0x80 ||| (n &&& 0x3F))]

/-- UTF-8 byte sequence of a string (Rust's `str::as_bytes`). -/
def utf8Bytes (s : String) : List UInt8 :=
  (s.data.map utf8EncodeChar).flatten

/-- The standard base64 alphabet used by `base64::encode`. -/
def b64Alphabet : List Char :=
  "ABCDEFGHIJKLMNOPQRSTUVWXYZabcdefghijklmnopqrstuvwxyz0123456789+/".data

/-- Character of the base64 alphabet at a 6-bit index. -/
def b64Char (n : Nat) : Char := b64Alphabet.getD n '?'

/-- Standard base64 encoding with padding, following `base64::encode`
(the crate's default STANDARD configuration). -/
def base64Encode : List UInt8 → String
  | [] => ""
  | [a] =>
      String.mk [b64Char (a.toNat >>> 2), b64Char ((a.toNat &&& 0x3) <<< 4), '=', '=']
  | [a, b] =>
      String.mk [b64Char (a.toNat >>> 2),
                 b64Char (((a.toNat &&& 0x3) <<< 4) ||| (b.toNat >>> 4)),
                 b64Char ((b.toNat &&& 0xF) <<< 2), '=']
  | a :: b :: c :: rest =>
      String.mk [b64Char (a.toNat >>> 2),
                 b64Char (((a.toNat &&& 0x3) <<< 4) ||| (b.toNat >>> 4)),
                 b64Char (((b.toNat &&& 0xF) <<< 2) ||| (c.toNat >>> 6)),
                 b64Char (c.toNat &&& 0x3F)] ++ base64Encode rest

/-- Parsed URI components, as exposed by `http::Uri` (`host()`, `port()`,
`path()`). Parsing itself is performed by the external `http` crate;
the embedding takes parse results (`Except String Uri`, the error being
the parse error's message) as inputs where the source calls
`Uri::from_str`. -/
structure Uri where
  host : Option String
  port : Option Nat
  path : String
deriving DecidableEq

/-- Modelled from the spec: `crate::Error` is declared outside
`src/hyper_http.rs`; the spec lists the error kinds as `InvalidEndpoint`
(URL failed to parse at builder time), `Serialization` (request could not
be encoded), `Transport` (connection failure, timeout, or unreachable
condition during the HTTP exchange) and `Deserialization` (response body
was not valid JSON or did not match the expected shape). Each carries its
underlying error's message. -/
inductive Error where
  | InvalidEndpoint (msg : String)
  | Serialization (msg : String)
  | Transport (msg : String)
  | Deserialization (msg : String)
deriving DecidableEq

/-- Whether an error is the `InvalidEndpoint` kind. -/
def Error.isInvalidEndpoint : Error → Bool
  | .InvalidEndpoint _ => true
  | _ => false

/-- The transport configuration of `HyperTransport` (src/hyper_http.rs
lines 12-18). The `client : hyper::Client<HttpConnector>` field is an
external handle with no observable configuration state of its own; it is
modelled by the `exchange` parameter of `HyperTransport.request`.
Timeouts are in milliseconds. -/
structure HyperTransport where
  uri : Uri
  timeout : Nat
  basic_auth : Option String
deriving DecidableEq

/-- `HyperTransport::new` (lines 20-32): uri `127.0.0.1:8332` (authority
form: host and port, empty path), timeout 2 s, no auth. -/
def HyperTransport.new : HyperTransport :=
  { uri := { host := some "127.0.0.1", port := some 8332, path := "" }
    timeout := 2000
    basic_auth := none }

/-- An HTTP request as assembled by `hyper::Request::builder()` in
`HyperTransport::request` (lines 40-50). -/
structure HttpRequest where
  method : String
  uri : Uri
  headers : List (String × String)
  body : List UInt8
deriving DecidableEq

/-- Outcome of the HTTP exchange performed by the external `hyper`
client inside `block_on` (lines 52-58): the request itself can fail
(`failed`, e.g. connection refused), reading the response body can fail
(`bodyReadFailed`), or a body is received — given as `some j` when the
bytes parse as the JSON value `j`, and `none` when they are not valid
JSON. -/
inductive ExchangeResult where
  | failed (msg : String)
  | bodyReadFailed (msg : String)
  | ok (body : Option Json)

/-- Result of one call through `HyperTransport::request`: a decoded
value, a typed `crate::Error`, or a Rust panic (an `unwrap` on an
`Err`/`None`). -/
inductive ReqOutcome (α : Type) where
  | ok (value : α)
  | err (e : Error)
  | panicked
deriving DecidableEq

/-- The headers attached by `HyperTransport::request` (lines 40-48):
`Connection: Close`, `Content-Type: application/json`,
`Content-Length: <n>`, and `Authorization: <value>` when `basic_auth`
is configured. -/
def buildHttpRequest (t : HyperTransport) (body : List UInt8) : HttpRequest :=
  { method := "POST"
    uri := t.uri
    headers :=
      [("Connection", "Close"),
       ("Content-Type", "application/json"),
       ("Content-Length", toString body.length)] ++
        (match t.basic_auth with
         | some v => [("Authorization", v)]
         | none => [])
    body := body }

/-- `HyperTransport::request` (lines 34-64). `now` is the clock reading
taken by `Instant::now()`; `request_deadline` is computed exactly as in
the source (line 38) — and, as in the source, never consulted again.
`exchange` is the external hyper client's exchange; `decodeR` is
`serde_json::from_slice`'s shape-decoding into the expected type `R`.
The three `.unwrap()` calls on the exchange path (lines 50, 55, 56)
become `panicked` outcomes; a body that is not valid JSON makes
`serde_json::from_slice` fail, which line 62 converts into the error
for a non-decodable body. -/
def HyperTransport.request (t : HyperTransport) (now : Nat)
    (exchange : HttpRequest → ExchangeResult)
    (decodeR : Json → Except Error α) (req : Json) : ReqOutcome α :=
  let request_deadline := now + t.timeout
  let body := utf8Bytes (jsonToString req)
  let hreq := buildHttpRequest t body
  match exchange hreq with
  | .failed _ => .panicked
  | .bodyReadFailed _ => .panicked
  | .ok none => .err (.Deserialization "invalid JSON body")
  | .ok (some j) =>
      match decodeR j with
      | .ok v => .ok v
      | .error e => .err e

/-- Modelled from the spec: `crate::Request` and `crate::Response` are
declared outside `src/hyper_http.rs`; the spec describes them as opaque
(de)serializable envelopes that the transport passes through without
interpreting their fields, so they are modelled as JSON values with the
identity encoding. -/
abbrev Request := Json

/-- Modelled from the spec: see `Request`. -/
abbrev Response := Json

/-- Shape-decoding of a single `Response` from a JSON value: any JSON
value is an opaque response envelope. -/
def decodeResponse (j : Json) : Except Error Response := .ok j

/-- Shape-decoding of `Vec<Response>` from a JSON value, following
serde: the value must be a JSON array, and its elements are taken in
array order; anything else fails wholesale. -/
def decodeBatchResponse (j : Json) : Except Error (List Response) :=
  match j with
  | .arr xs => .ok xs
  | _ => .error (.Deserialization "expected JSON array")

/-- `Transport::send_request` for `HyperTransport` (lines 68-70). -/
def HyperTransport.send_request (t : HyperTransport) (now : Nat)
    (exchange : HttpRequest → ExchangeResult) (req : Request) :
    ReqOutcome Response :=
  t.request now exchange decodeResponse req

/-- `Transport::send_batch` for `HyperTransport` (lines 72-74): serde
serializes the `&[Request]` slice as the JSON array of the requests in
slice order. -/
def HyperTransport.send_batch (t : HyperTransport) (now : Nat)
    (exchange : HttpRequest → ExchangeResult) (reqs : List Request) :
    ReqOutcome (List Response) :=
  t.request now exchange decodeBatchResponse (Json.arr reqs)

/-- Result of `fmt_target` (lines 76-84): the rendered string, or a
panic — the source calls `.unwrap()` on `self.uri.host()` and
`self.uri.port()`, which are `None` for URIs without those components. -/
inductive FmtOutcome where
  | ok (s : String)
  | panicked
deriving DecidableEq

/-- `Transport::fmt_target` for `HyperTransport` (lines 76-84):
`write!(f, "http://\x7b\x7d:\x7b\x7d\x7b\x7d", host.unwrap(), port.unwrap(), path)`. -/
def HyperTransport.fmt_target (t : HyperTransport) : FmtOutcome :=
  match t.uri.host, t.uri.port with
  | some h, some p => .ok ("http://" ++ h ++ ":" ++ toString p ++ t.uri.path)
  | some _, none => .panicked
  | none, _ => .panicked

/-- Rendering of `Option<String>` by `derive(Debug)`. -/
def debugOption : Option String → String
  | none => "None"
  | some s => "Some(\"" ++ s ++ "\")"

/-- Rendering of the `uri` field by `derive(Debug)`. -/
def debugUri (u : Uri) : String :=
  (match u.host with | some h => h | none => "") ++
    (match u.port with | some p => ":" ++ toString p | none => "") ++ u.path

/-- The `#[derive(Clone, Debug)]` on `HyperTransport` (line 12) derives a
`Debug` implementation that renders every field, `basic_auth` included. -/
def HyperTransport.debugRender (t : HyperTransport) : String :=
  "HyperTransport \x7b uri: " ++ debugUri t.uri ++
    ", timeout: " ++ toString t.timeout ++ "ms" ++
    ", basic_auth: " ++ debugOption t.basic_auth ++
    ", client: Client \x7d"

/-- The `Builder` around a `HyperTransport` (lines 87-129). -/
structure Builder where
  transport : HyperTransport
deriving DecidableEq

/-- `Builder::new` (lines 93-97). -/
def Builder.new : Builder := { transport := HyperTransport.new }

/-- `Builder::timeout` (lines 99-102). -/
def Builder.timeout (b : Builder) (t : Nat) : Builder :=
  { b with transport := { b.transport with timeout := t } }

/-- `Builder::url` (lines 104-108): `Uri::from_str(url)` is the external
parse whose result is the argument `parsed`; a parse error is wrapped by
`map_err` into `crate::Error::Transport(Box::new(err))`. -/
def Builder.url (b : Builder) (parsed : Except String Uri) : Except Error Builder :=
  match parsed with
  | .error e => .error (.Transport e)
  | .ok u => .ok { b with transport := { b.transport with uri := u } }

/-- `Builder::auth` (lines 110-118): `user`, then a pushed `':'`, then
the password when present; the base64 of those bytes behind `"Basic "`
replaces any previous `basic_auth`. -/
def Builder.auth (b : Builder) (user : String) (pass : Option String) : Builder :=
  let a := user.push ':'
  let a := match pass with
    | some p => a ++ p
    | none => a
  { b with transport :=
      { b.transport with basic_auth := some ("Basic " ++ base64Encode (utf8Bytes a)) } }

/-- `Builder::cookie_auth` (lines 120-124). -/
def Builder.cookie_auth (b : Builder) (cookie : String) : Builder :=
  { b with transport :=
      { b.transport with basic_auth := some ("Basic " ++ base64Encode (utf8Bytes cookie)) } }

/-- `Builder::build` (lines 126-128). -/
def Builder.build (b : Builder) : HyperTransport := b.transport

/-- Modelled from the spec: the generic `crate::Client` is declared
outside `src/hyper_http.rs`; per the spec it merely wraps the transport
(`Client::with_transport`). -/
structure Client where
  transport : HyperTransport
deriving DecidableEq

/-- Modelled from the spec: `Client::with_transport` wraps a transport
in the generic client. -/
def Client.with_transport (t : HyperTransport) : Client := ⟨t⟩

/-- `Client::hyper_http` (lines 131-143): build from a URL parse result;
when `user` is present, apply `auth(user, pass)`. -/
def Client.hyper_http (parsedUrl : Except String Uri)
    (user : Option String) (pass : Option String) : Except Error Client :=
  match Builder.new.url parsedUrl with
  | .error e => .error e
  | .ok b =>
      let b := match user with
        | some u => b.auth u pass
        | none => b
      .ok (Client.with_transport b.build)

/-- One authorization-setting builder call (`auth` or `cookie_auth`),
used to reason about arbitrary sequences of such calls. -/
inductive AuthCall where
  | auth (user : String) (pass : Option String)
  | cookie (cookie : String)

/-- Application of one authorization-setting call to a builder. -/
def applyAuthCall (b : Builder) : AuthCall → Builder
  | .auth u p => b.auth u p
  | .cookie c => b.cookie_auth c

/-- The authorization value a single call computes, independent of any
builder state. -/
def authCallValue : AuthCall → String
  | .auth u p =>
      "Basic " ++ base64Encode (utf8Bytes
        (match p with
         | some s => (u.push ':') ++ s
         | none => u.push ':'))
  | .cookie c => "Basic " ++ base64Encode (utf8Bytes c)

/-! ### Helper lemmas -/

theorem digitChar_ne_space (n : Nat) : Nat.digitChar n ≠ ' ' := by
  rcases Nat.lt_or_ge n 16 with h | h
  · interval_cases n <;> decide
  · have e : Nat.digitChar n = '*' := by
      unfold Nat.digitChar
      iterate 16 rw [if_neg]
      all_goals omega
    rw [e]
    decide

theorem space_notMem_toDigitsCore (b fuel n : Nat) (ds : List Char)
    (h : ' ' ∉ ds) : ' ' ∉ Nat.toDigitsCore b fuel n ds := by
  induction fuel generalizing n ds with
  | zero => simpa [Nat.toDigitsCore] using h
  | succ fuel ih =>
    simp only [Nat.toDigitsCore]
    split
    · intro hmem
      rcases List.mem_cons.mp hmem with hd | hds
      · exact digitChar_ne_space _ hd.symm
      · exact h hds
    · refine ih _ _ ?_
      intro hmem
      rcases List.mem_cons.mp hmem with hd | hds
      · exact digitChar_ne_space _ hd.symm
      · exact h hds

theorem space_notMem_natToString (n : Nat) : ' ' ∉ (toString n).data := by
  have : (toString n).data = Nat.toDigitsCore 10 (n + 1) n [] := rfl
  rw [this]
  exact space_notMem_toDigitsCore 10 (n + 1) n [] (by simp)

/-! ### Claims -/

/-- C1: the claim states that the deadline computed at call start as
`now + timeout` bounds the entire HTTP exchange and that on expiry the
call aborts with a timeout-flavored `Transport` error. The code computes
`request_deadline` (line 38) and never consults it again: the outcome of
`send_request` and `send_batch` is provably independent of the configured
timeout and of the clock reading, so no deadline is ever enforced and no
timeout error can ever be produced — the call simply waits for the
exchange, however long it takes. -/
theorem C1_timeout_never_enforced (t : HyperTransport) (d₁ d₂ n₁ n₂ : Nat)
    (exchange : HttpRequest → ExchangeResult) (req : Request) (reqs : List Request) :
    HyperTransport.send_request { t with timeout := d₁ } n₁ exchange req =
      HyperTransport.send_request { t with timeout := d₂ } n₂ exchange req ∧
    HyperTransport.send_batch { t with timeout := d₁ } n₁ exchange reqs =
      HyperTransport.send_batch { t with timeout := d₂ } n₂ exchange reqs :=
  ⟨rfl, rfl⟩

/-- C2: the claim states that when the HTTP exchange fails (connection
failure, unreachable server, or a failure reading the response body) the
call returns a typed `Transport` error. In the code both failures hit an
`.unwrap()` (lines 55-56) and the process panics instead: for every
transport, request and batch, an exchange that fails — either at request
time or while reading the body — makes `send_request` and `send_batch`
panic rather than return an error. -/
theorem C2_network_failure_panics (t : HyperTransport) (n : Nat) (msg : String)
    (req : Request) (reqs : List Request) :
    t.send_request n (fun _ => .failed msg) req = .panicked ∧
    t.send_request n (fun _ => .bodyReadFailed msg) req = .panicked ∧
    t.send_batch n (fun _ => .failed msg) reqs = .panicked ∧
    t.send_batch n (fun _ => .bodyReadFailed msg) reqs = .panicked :=
  ⟨rfl, rfl, rfl, rfl⟩

/-- C3 fails as stated: on a string rejected by `Uri::from_str`
(e.g. the empty string, whose parse error reads "empty string"),
`Builder::url` returns a `Transport`-kind error — its `map_err` on
line 106 wraps the parse error in `crate::Error::Transport` — not an
`InvalidEndpoint`-kind one. -/
theorem C3_counterexample :
    Builder.new.url (Except.error "empty string") =
      Except.error (Error.Transport "empty string") ∧
    Error.isInvalidEndpoint (Error.Transport "empty string") = false :=
  ⟨rfl, rfl⟩

/-- C3 (amended): for every string that does not parse as a valid URL,
`Builder::url` returns a `Transport` error wrapping the parse failure —
not an `InvalidEndpoint` error — and never panics (it is a total
function into `Except`). -/
theorem C3_url_parse_failure_is_transport (b : Builder) (e : String) :
    b.url (Except.error e) = Except.error (Error.Transport e) ∧
    Error.isInvalidEndpoint (Error.Transport e) = false :=
  ⟨rfl, rfl⟩

/-- C7: `auth("alice", Some("secret"))` stores exactly
`Basic YWxpY2U6c2VjcmV0` (base64 of "alice:secret") and
`cookie_auth("tok123")` stores exactly `Basic dG9rMTIz`
(base64 of "tok123"). -/
theorem C7_base64_fixtures :
    (Builder.new.auth "alice" (some "secret")).transport.basic_auth =
      some "Basic YWxpY2U6c2VjcmV0" ∧
    (Builder.new.cookie_auth "tok123").transport.basic_auth =
      some "Basic dG9rMTIz" := by
  constructor
  · decide
  · decide

/-- C9: for every builder and every non-empty sequence of `auth`/
`cookie_auth` calls, the final configured authorization value is exactly
the value computed by the last call — independent of the builder's prior
state and of every earlier call, so setting one discards any previous
value. -/
theorem C9_last_auth_call_wins (b : Builder) (calls : List AuthCall) (c : AuthCall) :
    ((calls ++ [c]).foldl applyAuthCall b).transport.basic_auth =
      some (authCallValue c) := by
  rw [List.foldl_append]
  cases c <;> rfl

/-- C4 fails as stated: the URL "http://localhost/" is accepted by
`Uri::from_str` with host `localhost`, no explicit port, and path `/`;
`Builder::url` accepts it, yet `fmt_target` panics on it — line 81 calls
`.unwrap()` on `self.uri.port()`, which is `None`. -/
theorem C4_counterexample :
    Builder.new.url
        (Except.ok { host := some "localhost", port := none, path := "/" }) =
      Except.ok { transport := { HyperTransport.new with
        uri := { host := some "localhost", port := none, path := "/" } } } ∧
    HyperTransport.fmt_target { HyperTransport.new with
        uri := { host := some "localhost", port := none, path := "/" } } =
      FmtOutcome.panicked :=
  ⟨rfl, rfl⟩

/-- C4 (amended): for every URL accepted by `Builder::url` whose parsed
URI carries both a host and an explicit port, `fmt_target` succeeds
without panicking and produces exactly `"http://<host>:<port><path>"`;
the output is independent of the configured authorization value, and —
since every configured authorization value has the form `"Basic <b64>"`
and so contains a space while host, port digits and path of a parsed URI
do not — the output never contains the configured authorization value.
When host or explicit port is absent the rendering panics instead
(see the counterexample). -/
theorem C4_fmt_target_renders (u : Uri) (hst : String) (prt : Nat)
    (t : HyperTransport)
    (hh : u.host = some hst) (hp : u.port = some prt) (ht : t.uri = u) :
    Builder.new.url (Except.ok u) =
      Except.ok { transport := { HyperTransport.new with uri := u } } ∧
    t.fmt_target = FmtOutcome.ok ("http://" ++ hst ++ ":" ++ toString prt ++ u.path) ∧
    (∀ v, ({ t with basic_auth := v } : HyperTransport).fmt_target = t.fmt_target) ∧
    (∀ a r, t.basic_auth = some a → a = "Basic " ++ r →
      ' ' ∉ hst.data → ' ' ∉ u.path.data →
      ¬ a.data <:+: ("http://" ++ hst ++ ":" ++ toString prt ++ u.path).data) := by
  refine ⟨rfl, ?_, ?_, ?_⟩
  · unfold HyperTransport.fmt_target
    rw [ht, hh, hp]
  · intro v
    rfl
  · intro a r hba har hhs hps hinf
    have hsp : ' ' ∈ a.data := by
      rw [har, String.data_append]
      exact List.mem_append_left _ (by decide)
    have hsp2 := hinf.subset hsp
    rw [String.data_append, String.data_append, String.data_append,
        String.data_append] at hsp2
    simp only [List.mem_append] at hsp2
    rcases hsp2 with ((((h1 | h2) | h3) | h4) | h5)
    · exact absurd h1 (by decide)
    · exact hhs h2
    · exact absurd h3 (by decide)
    · exact space_notMem_natToString prt h4
    · exact hps h5

/-- Witness for C4 at a concrete endpoint and authorization value. -/
theorem C4_witness :
    Builder.new.url
        (Except.ok { host := some "node.example", port := some 8332, path := "/wallet" }) =
      Except.ok { transport := { HyperTransport.new with
        uri := { host := some "node.example", port := some 8332, path := "/wallet" } } } ∧
    HyperTransport.fmt_target
        { uri := { host := some "node.example", port := some 8332, path := "/wallet" }
          timeout := 2000, basic_auth := some "Basic dXNlcjo=" } =
      FmtOutcome.ok ("http://" ++ "node.example" ++ ":" ++ toString 8332 ++ "/wallet") ∧
    ¬ ("Basic dXNlcjo=").data <:+:
        ("http://" ++ "node.example" ++ ":" ++ toString 8332 ++ "/wallet").data := by
  have h := C4_fmt_target_renders
    { host := some "node.example", port := some 8332, path := "/wallet" }
    "node.example" 8332
    { uri := { host := some "node.example", port := some 8332, path := "/wallet" }
      timeout := 2000, basic_auth := some "Basic dXNlcjo=" }
    rfl rfl rfl
  exact ⟨h.1, h.2.1, h.2.2.2 "Basic dXNlcjo=" "dXNlcjo=" rfl rfl (by decide) (by decide)⟩

/-- C5 fails as stated: two transports that differ only in `basic_auth`
(`HyperTransport::new` with and without a configured value) have
different derived `Debug` renderings, because `#[derive(Debug)]` on
line 12 renders every field, `basic_auth` included. -/
theorem C5_counterexample :
    ({ HyperTransport.new with
        basic_auth := some "Basic dG9rMTIz" } : HyperTransport).debugRender ≠
      HyperTransport.new.debugRender := by
  decide

/-- C5 (amended): the computed authorization string does flow into the
derived `Debug` output — there are transports differing only in
`basic_auth` whose derived `Debug` renderings differ — while the
`fmt_target` display rendering is identical for any two transports
differing only in `basic_auth` (the secret never flows into it). -/
theorem C5_secret_flows_into_debug_not_fmt_target (t : HyperTransport)
    (v₁ v₂ : Option String) :
    ({ t with basic_auth := v₁ } : HyperTransport).fmt_target =
      ({ t with basic_auth := v₂ } : HyperTransport).fmt_target ∧
    ({ HyperTransport.new with
        basic_auth := some "Basic dG9rMTIz" } : HyperTransport).debugRender ≠
      HyperTransport.new.debugRender :=
  ⟨rfl, by decide⟩

/-- C6: the payload `send_batch` serializes is the JSON array of the
requests in their given order; decoding a batch response succeeds with
list `l` exactly when the body is the JSON array of `l`'s elements in
that positional order (no reordering, no id-based correlation, and no
partial result — any non-array body fails wholesale); consequently a
fully successful batch call means the server's body was exactly the
array of the returned responses in order. -/
theorem C6_batch_order_preserved (t : HyperTransport) (n : Nat)
    (exchange : HttpRequest → ExchangeResult) (reqs : List Request) :
    t.send_batch n exchange reqs =
      t.request n exchange decodeBatchResponse (Json.arr reqs) ∧
    (∀ (j : Json) (l : List Response),
      decodeBatchResponse j = Except.ok l ↔ j = Json.arr l) ∧
    (∀ l : List Response, t.send_batch n exchange reqs = ReqOutcome.ok l →
      exchange (buildHttpRequest t (utf8Bytes (jsonToString (Json.arr reqs)))) =
        ExchangeResult.ok (some (Json.arr l))) := by
  refine ⟨rfl, ?_, ?_⟩
  · intro j l
    constructor
    · intro h
      cases j with
      | arr xs =>
        injection h with h'
        rw [h']
      | null => exact Except.noConfusion h
      | bool b => exact Except.noConfusion h
      | num m => exact Except.noConfusion h
      | str s => exact Except.noConfusion h
      | obj fs => exact Except.noConfusion h
    · rintro rfl
      rfl
  · intro l h
    unfold HyperTransport.send_batch HyperTransport.request at h
    dsimp only at h
    cases hexch : exchange (buildHttpRequest t (utf8Bytes (jsonToString (Json.arr reqs)))) with
    | failed m =>
      rw [hexch] at h
      exact ReqOutcome.noConfusion h
    | bodyReadFailed m =>
      rw [hexch] at h
      exact ReqOutcome.noConfusion h
    | ok body =>
      cases body with
      | none =>
        rw [hexch] at h
        exact ReqOutcome.noConfusion h
      | some j =>
        rw [hexch] at h
        cases j with
        | arr xs =>
          have h' : xs = l := by
            have hx : ReqOutcome.ok (α := List Response) xs = ReqOutcome.ok l := h
            injection hx
          rw [h']
        | null => exact ReqOutcome.noConfusion h
        | bool b => exact ReqOutcome.noConfusion h
        | num m => exact ReqOutcome.noConfusion h
        | str s => exact ReqOutcome.noConfusion h
        | obj fs => exact ReqOutcome.noConfusion h

/-- Witness for C6 at a concrete batch and server body. -/
theorem C6_witness :
    (decodeBatchResponse (Json.arr [Json.num 7, Json.str "x"]) =
        Except.ok [Json.num 7, Json.str "x"] ↔
      Json.arr [Json.num 7, Json.str "x"] = Json.arr [Json.num 7, Json.str "x"]) ∧
    (fun _ => ExchangeResult.ok (some (Json.arr [Json.num 1, Json.num 2])))
        (buildHttpRequest HyperTransport.new
          (utf8Bytes (jsonToString (Json.arr [Json.null, Json.bool true])))) =
      ExchangeResult.ok (some (Json.arr [Json.num 1, Json.num 2])) := by
  have h := C6_batch_order_preserved HyperTransport.new 0
    (fun _ => ExchangeResult.ok (some (Json.arr [Json.num 1, Json.num 2])))
    [Json.null, Json.bool true]
  exact ⟨h.2.1 (Json.arr [Json.num 7, Json.str "x"]) [Json.num 7, Json.str "x"],
         h.2.2 [Json.num 1, Json.num 2] rfl⟩

/-- C8: every request assembled by `HyperTransport::request` (hence by
`send_request` and `send_batch`, whose payloads are the single request
and the batch array respectively) is a POST to the configured URI whose
headers are exactly `Connection: Close`, `Content-Type:
application/json`, `Content-Length: <byte length of the serialized
payload>`, followed by `Authorization: <value>` exactly when an
authorization value is configured. -/
theorem C8_request_method_and_headers (t : HyperTransport) (payload : Json) :
    (buildHttpRequest t (utf8Bytes (jsonToString payload))).method = "POST" ∧
    (buildHttpRequest t (utf8Bytes (jsonToString payload))).uri = t.uri ∧
    (buildHttpRequest t (utf8Bytes (jsonToString payload))).headers =
      [("Connection", "Close"), ("Content-Type", "application/json"),
       ("Content-Length", toString (utf8Bytes (jsonToString payload)).length)] ++
        (match t.basic_auth with
         | some v => [("Authorization", v)]
         | none => []) ∧
    (∀ v, ("Authorization", v) ∈
        (buildHttpRequest t (utf8Bytes (jsonToString payload))).headers ↔
      t.basic_auth = some v) := by
  refine ⟨rfl, rfl, rfl, ?_⟩
  intro v
  cases hba : t.basic_auth with
  | none => simp [buildHttpRequest, hba]
  | some a => simp [buildHttpRequest, hba, eq_comm]

/-- Witness for C8 at a concrete transport with a configured
authorization value. -/
theorem C8_witness :
    (buildHttpRequest
        { uri := { host := some "h", port := some 1, path := "/" }
          timeout := 100, basic_auth := some "Basic Zm9v" }
        (utf8Bytes (jsonToString Json.null))).method = "POST" ∧
    (("Authorization", "Basic Zm9v") ∈
      (buildHttpRequest
        { uri := { host := some "h", port := some 1, path := "/" }
          timeout := 100, basic_auth := some "Basic Zm9v" }
        (utf8Bytes (jsonToString Json.null))).headers) := by
  have h := C8_request_method_and_headers
    { uri := { host := some "h", port := some 1, path := "/" }
      timeout := 100, basic_auth := some "Basic Zm9v" } Json.null
  exact ⟨h.1, (h.2.2.2 "Basic Zm9v").mpr rfl⟩

/-- C10: `Builder::auth(u, None)` stores `"Basic "` followed by the
base64 of `u` with a trailing colon appended (lines 111-116 push `':'`
and skip the absent password), and `Client::hyper_http` with `user =
None` ignores `pass` entirely (the `if let` on line 138 is skipped) and
configures no authorization value. -/
theorem C10_auth_none_and_client_no_user (u : String) (b : Builder)
    (parsed : Except String Uri) (p : Option String) :
    (b.auth u none).transport.basic_auth =
      some ("Basic " ++ base64Encode (utf8Bytes (u ++ ":"))) ∧
    Client.hyper_http parsed none p = Client.hyper_http parsed none none ∧
    (∀ c : Client, Client.hyper_http parsed none p = Except.ok c →
      c.transport.basic_auth = none) := by
  refine ⟨?_, rfl, ?_⟩
  · have e : utf8Bytes (u.push ':') = utf8Bytes (u ++ ":") := by
      simp [utf8Bytes, String.data_push, String.data_append]
    show some ("Basic " ++ base64Encode (utf8Bytes (u.push ':'))) = _
    rw [e]
  · intro c h
    cases parsed with
    | error e2 => exact Except.noConfusion h
    | ok u2 =>
      have h' : Except.ok (Client.with_transport
          { HyperTransport.new with uri := u2 }) = Except.ok c := h
      injection h' with h''
      rw [← h'']
      rfl

/-- Witness for C10 at concrete credentials and endpoint. -/
theorem C10_witness :
    (Builder.new.auth "bob" none).transport.basic_auth =
      some ("Basic " ++ base64Encode (utf8Bytes ("bob" ++ ":"))) ∧
    Client.hyper_http (Except.ok { host := some "h", port := some 1, path := "/" })
        none (some "pw") =
      Client.hyper_http (Except.ok { host := some "h", port := some 1, path := "/" })
        none none ∧
    (Client.with_transport { HyperTransport.new with
        uri := { host := some "h", port := some 1, path := "/" } }).transport.basic_auth =
      none := by
  have h := C10_auth_none_and_client_no_user "bob" Builder.new
    (Except.ok { host := some "h", port := some 1, path := "/" }) (some "pw")
  exact ⟨h.1, h.2.1, h.2.2 _ rfl⟩

end RustJsonrpc
